import Mathlib

/-!
Shallow embedding of the `surrealdb_extra` query-builder core:

* `src/query/builder/select.rs` — the typestate `SelectBuilder` over a
  `surrealdb::sql::statements::SelectStatement`, with its phantom state
  markers `NoWhat/FilledWhat`, `NoFields/FilledFields`, `NoCond/FilledCond`
  and one Lean function per builder method, each translated from the Rust
  method body.
* `src/table/mod.rs` — the `Table` trait's `update` and `select_builder`.

Clause payload types (`Idiom`, `Field`, `Order`, ...) come from the external
`surrealdb::sql` crate; the builder never inspects them, it only stores,
appends or overwrites them, so they are embedded as opaque payloads
(strings / numbers).  The connection handle `db : &Surreal<Client>` is
carried through every method unchanged and plays no role in any statement
mutation, so it is omitted from the embedding.
-/

namespace SurrealDB

/-- Opaque payload: `surrealdb::sql::Idiom` (a field path). -/
abbrev Idiom := String

/-- Opaque payload: `surrealdb::sql::Field`, one projection fragment. -/
abbrev Field := String

/-- Opaque payload: `surrealdb::sql::Cond`, a filter expression tree. -/
abbrev Cond := String

/-- Opaque payload: `surrealdb::sql::With`, an index/relation hint. -/
abbrev With := String

/-- Opaque payload: `surrealdb::sql::Split`. -/
abbrev Split := String

/-- Opaque payload: `surrealdb::sql::Group`. -/
abbrev Group := String

/-- Opaque payload: `surrealdb::sql::Order`, one order specification. -/
abbrev Order := String

/-- Opaque payload: `surrealdb::sql::Limit` (a numeric value). -/
abbrev Limit := Nat

/-- Opaque payload: `surrealdb::sql::Start` (a numeric value). -/
abbrev Start := Nat

/-- Opaque payload: `surrealdb::sql::Fetch`. -/
abbrev Fetch := String

/-- Opaque payload: `surrealdb::sql::Version` (a point-in-time marker). -/
abbrev Version := String

/-- Opaque payload: `surrealdb::sql::Timeout` (a duration). -/
abbrev Timeout := Nat

/-- `surrealdb::sql::Id`, the identifier portion of a record id; string ids
are embedded directly, with `to_raw` the identity on them. -/
abbrev Id := String

/-- `Id::to_raw` for string identifiers. -/
def Id.to_raw (i : Id) : String := i

/-- `surrealdb::sql::Thing` (aliased `RecordId` in `table/mod.rs`): a table
name `tb` together with an identifier `id`. -/
structure RecordId where
  tb : String
  id : Id
deriving DecidableEq, Repr

/-- A target value stored in the statement's `what` slot
(`surrealdb::sql::Value`): either a bare table name or a fully qualified
record reference.  Modelled from the spec: the conversion code
(`query/parsing/what.rs`, `impl Into<ExtraValue>`) is not under `src/`;
the spec says `what` accepts "either a bare name (table-wide selection),
a fully qualified record reference (table + identifier), or a raw
value-expression for advanced targets". -/
inductive Value where
  | table (name : String)
  | thing (r : RecordId)
  | raw (v : String)
deriving DecidableEq, Repr

/-- `surrealdb::sql::Values`, the statement's target list. -/
abbrev Values := List Value

/-- Modelled from the spec: the `Into<ExtraValue>` conversion of a bare
table name (`query/parsing/what.rs` is not under `src/`) — a bare name
becomes a single table-wide target. -/
def ExtraValue.ofTable (name : String) : Values := [Value.table name]

/-- Modelled from the spec: the `Into<ExtraValue>` conversion of a
`RecordId` (`query/parsing/what.rs` is not under `src/`) — a record
reference becomes a single single-record target. -/
def ExtraValue.ofRecordId (r : RecordId) : Values := [Value.thing r]

/-- `surrealdb::sql::statements::SelectStatement`: the canonical in-memory
statement the builder mutates.  `Fields`, `Idioms`, `Splits`, `Groups`,
`Orders`, `Fetchs` are wrappers around vectors, embedded as lists;
`Explain` wraps a boolean.  `with` is a Lean keyword, hence `with_`. -/
structure SelectStatement where
  expr : List Field
  omit_ : Option (List Idiom)
  only : Bool
  what : Values
  with_ : Option With
  cond : Option Cond
  split : Option (List Split)
  group : Option (List Group)
  order : Option (List Order)
  limit : Option Limit
  start : Option Start
  fetch : Option (List Fetch)
  version : Option Version
  timeout : Option Timeout
  parallel : Bool
  explain : Option Bool
deriving DecidableEq, Repr

/- The statement field and builder method for the `OMIT` clause are named
`omit_` because `omit` is a Lean keyword; `with_` likewise for `with`. -/

/-- `SelectStatement::default()` (`Default::default()` in `SelectBuilder::new`):
every vector empty, every option `None`, every flag `false`. -/
def SelectStatement.default : SelectStatement where
  expr := []
  omit_ := none
  only := false
  what := []
  with_ := none
  cond := none
  split := none
  group := none
  order := none
  limit := none
  start := none
  fetch := none
  version := none
  timeout := none
  parallel := false
  explain := none

/-- Typestate marker for the target stage (`crate::query::states`). -/
inductive WhatState where
  | NoWhat
  | FilledWhat
deriving DecidableEq, Repr

/-- Typestate marker for the projection stage (`crate::query::states`). -/
inductive FieldsState where
  | NoFields
  | FilledFields
deriving DecidableEq, Repr

/-- Typestate marker for the filter stage (`crate::query::states`). -/
inductive CondState where
  | NoCond
  | FilledCond
deriving DecidableEq, Repr

/-- `SelectBuilder<'r, Client, W, F, C>`: a statement plus three phantom
typestate markers, here type-level indices.  The borrowed connection is
carried through unchanged and omitted. -/
structure SelectBuilder (W : WhatState) (F : FieldsState) (C : CondState) where
  statement : SelectStatement
deriving DecidableEq

namespace SelectBuilder

/-- `SelectBuilder::new`: a fresh builder holding a default statement, at
stage `NoWhat, NoFields, NoCond`. -/
def new : SelectBuilder .NoWhat .NoFields .NoCond :=
  ⟨SelectStatement.default⟩

/-- `SelectBuilder::what` (select.rs:102): only on a `NoWhat, NoFields,
NoCond` builder; sets `statement.what` to the converted target and moves to
`FilledWhat`.  The argument is the already-converted `ExtraValue` payload. -/
def what (b : SelectBuilder .NoWhat .NoFields .NoCond) (w : Values) :
    SelectBuilder .FilledWhat .NoFields .NoCond :=
  ⟨{ b.statement with what := w }⟩

/-- `SelectBuilder::field` (select.rs:148): only once the target is set;
pushes one converted projection fragment onto `statement.expr` and moves to
`FilledFields`. -/
def field {F : FieldsState} {C : CondState}
    (b : SelectBuilder .FilledWhat F C) (f : Field) :
    SelectBuilder .FilledWhat .FilledFields C :=
  ⟨{ b.statement with expr := b.statement.expr ++ [f] }⟩

/-- `SelectBuilder::condition` (select.rs:221): only on a `FilledWhat,
FilledFields, NoCond` builder; sets `statement.cond` to the converted
filter and moves to `FilledCond`. -/
def condition (b : SelectBuilder .FilledWhat .FilledFields .NoCond)
    (c : Cond) :
    SelectBuilder .FilledWhat .FilledFields .FilledCond :=
  ⟨{ b.statement with cond := some c }⟩

/-- `SelectBuilder::omit` (select.rs:243): unwraps `statement.omit` (or a
default empty `Idioms`), pushes the converted idiom, stores it back. -/
def omit_ {C : CondState} (b : SelectBuilder .FilledWhat .FilledFields C)
    (x : Idiom) : SelectBuilder .FilledWhat .FilledFields C :=
  ⟨{ b.statement with omit_ := some (b.statement.omit_.getD [] ++ [x]) }⟩

/-- `SelectBuilder::with` (select.rs:264): overwrites `statement.with` with
the converted hint. -/
def with_ {C : CondState} (b : SelectBuilder .FilledWhat .FilledFields C)
    (x : With) : SelectBuilder .FilledWhat .FilledFields C :=
  ⟨{ b.statement with with_ := some x }⟩

/-- `SelectBuilder::split` (select.rs:279): unwraps `statement.split` (or a
default empty `Splits`), pushes the converted split, stores it back. -/
def split {C : CondState} (b : SelectBuilder .FilledWhat .FilledFields C)
    (x : Split) : SelectBuilder .FilledWhat .FilledFields C :=
  ⟨{ b.statement with split := some (b.statement.split.getD [] ++ [x]) }⟩

/-- `SelectBuilder::group` (select.rs:300): unwraps `statement.group` (or a
default empty `Groups`), pushes the converted group, stores it back. -/
def group {C : CondState} (b : SelectBuilder .FilledWhat .FilledFields C)
    (x : Group) : SelectBuilder .FilledWhat .FilledFields C :=
  ⟨{ b.statement with group := some (b.statement.group.getD [] ++ [x]) }⟩

/-- `SelectBuilder::order` (select.rs:341): unwraps `statement.order` (or a
default empty `Orders`), pushes the converted order spec, stores it back. -/
def order {C : CondState} (b : SelectBuilder .FilledWhat .FilledFields C)
    (x : Order) : SelectBuilder .FilledWhat .FilledFields C :=
  ⟨{ b.statement with order := some (b.statement.order.getD [] ++ [x]) }⟩

/-- `SelectBuilder::limit` (select.rs:375): overwrites `statement.limit`. -/
def limit {C : CondState} (b : SelectBuilder .FilledWhat .FilledFields C)
    (x : Limit) : SelectBuilder .FilledWhat .FilledFields C :=
  ⟨{ b.statement with limit := some x }⟩

/-- `SelectBuilder::start` (select.rs:405): overwrites `statement.start`. -/
def start {C : CondState} (b : SelectBuilder .FilledWhat .FilledFields C)
    (x : Start) : SelectBuilder .FilledWhat .FilledFields C :=
  ⟨{ b.statement with start := some x }⟩

/-- `SelectBuilder::fetch` (select.rs:422): unwraps `statement.fetch` (or a
default empty `Fetchs`), pushes the converted fetch, stores it back. -/
def fetch {C : CondState} (b : SelectBuilder .FilledWhat .FilledFields C)
    (x : Fetch) : SelectBuilder .FilledWhat .FilledFields C :=
  ⟨{ b.statement with fetch := some (b.statement.fetch.getD [] ++ [x]) }⟩

/-- `SelectBuilder::version` (select.rs:443): overwrites `statement.version`. -/
def version {C : CondState} (b : SelectBuilder .FilledWhat .FilledFields C)
    (x : Version) : SelectBuilder .FilledWhat .FilledFields C :=
  ⟨{ b.statement with version := some x }⟩

/-- `SelectBuilder::timeout` (select.rs:460): overwrites `statement.timeout`. -/
def timeout {C : CondState} (b : SelectBuilder .FilledWhat .FilledFields C)
    (x : Timeout) : SelectBuilder .FilledWhat .FilledFields C :=
  ⟨{ b.statement with timeout := some x }⟩

/-- `SelectBuilder::only` (select.rs:476): sets `statement.only = true`. -/
def only {C : CondState} (b : SelectBuilder .FilledWhat .FilledFields C) :
    SelectBuilder .FilledWhat .FilledFields C :=
  ⟨{ b.statement with only := true }⟩

/-- `SelectBuilder::parallel` (select.rs:490): sets
`statement.parallel = true`. -/
def parallel {C : CondState} (b : SelectBuilder .FilledWhat .FilledFields C) :
    SelectBuilder .FilledWhat .FilledFields C :=
  ⟨{ b.statement with parallel := true }⟩

/-- `SelectBuilder::explain` (select.rs:504): builds an `Explain` with inner
boolean `true` and stores `Some` of it. -/
def explain {C : CondState} (b : SelectBuilder .FilledWhat .FilledFields C) :
    SelectBuilder .FilledWhat .FilledFields C :=
  ⟨{ b.statement with explain := some true }⟩

/-- `SelectBuilder::to_query` (select.rs:521): hands the finished statement
to the execution layer (`db.query(statement)`); the embedding returns the
statement that is submitted. -/
def to_query {C : CondState}
    (b : SelectBuilder .FilledWhat .FilledFields C) : SelectStatement :=
  b.statement

end SelectBuilder

/-- A builder state with its typestate markers made runtime data, used to
quantify over "any sequence of builder calls". -/
structure BuilderState where
  whatState : WhatState
  fieldsState : FieldsState
  condState : CondState
  statement : SelectStatement
deriving DecidableEq, Repr

/-- Forget the type-level stage indices of a builder into a `BuilderState`. -/
def SelectBuilder.toState {W : WhatState} {F : FieldsState} {C : CondState}
    (b : SelectBuilder W F C) : BuilderState :=
  ⟨W, F, C, b.statement⟩

/-- One builder method call, as a relation on `BuilderState`: exactly the
methods the typestate interface exposes, each with its required incoming
stage and the statement transformation of the source method. -/
inductive Step : BuilderState → BuilderState → Prop where
  | what (b : SelectBuilder .NoWhat .NoFields .NoCond) (w : Values) :
      Step b.toState (b.what w).toState
  | field {F : FieldsState} {C : CondState}
      (b : SelectBuilder .FilledWhat F C) (f : Field) :
      Step b.toState (b.field f).toState
  | condition (b : SelectBuilder .FilledWhat .FilledFields .NoCond)
      (c : Cond) : Step b.toState (b.condition c).toState
  | omit_ {C : CondState} (b : SelectBuilder .FilledWhat .FilledFields C)
      (x : Idiom) : Step b.toState (b.omit_ x).toState
  | with_ {C : CondState} (b : SelectBuilder .FilledWhat .FilledFields C)
      (x : With) : Step b.toState (b.with_ x).toState
  | split {C : CondState} (b : SelectBuilder .FilledWhat .FilledFields C)
      (x : Split) : Step b.toState (b.split x).toState
  | group {C : CondState} (b : SelectBuilder .FilledWhat .FilledFields C)
      (x : Group) : Step b.toState (b.group x).toState
  | order {C : CondState} (b : SelectBuilder .FilledWhat .FilledFields C)
      (x : Order) : Step b.toState (b.order x).toState
  | limit {C : CondState} (b : SelectBuilder .FilledWhat .FilledFields C)
      (x : Limit) : Step b.toState (b.limit x).toState
  | start {C : CondState} (b : SelectBuilder .FilledWhat .FilledFields C)
      (x : Start) : Step b.toState (b.start x).toState
  | fetch {C : CondState} (b : SelectBuilder .FilledWhat .FilledFields C)
      (x : Fetch) : Step b.toState (b.fetch x).toState
  | version {C : CondState} (b : SelectBuilder .FilledWhat .FilledFields C)
      (x : Version) : Step b.toState (b.version x).toState
  | timeout {C : CondState} (b : SelectBuilder .FilledWhat .FilledFields C)
      (x : Timeout) : Step b.toState (b.timeout x).toState
  | only {C : CondState} (b : SelectBuilder .FilledWhat .FilledFields C) :
      Step b.toState b.only.toState
  | parallel {C : CondState} (b : SelectBuilder .FilledWhat .FilledFields C) :
      Step b.toState b.parallel.toState
  | explain {C : CondState} (b : SelectBuilder .FilledWhat .FilledFields C) :
      Step b.toState b.explain.toState

/-- A builder state reachable from a fresh `SelectBuilder::new` by some
sequence of method calls. -/
def Reachable (s : BuilderState) : Prop :=
  Relation.ReflTransGen Step SelectBuilder.new.toState s

/-- `TableError` (from `table/err.rs`, referenced by `Table::update`):
the "identifier absent" variant. -/
inductive TableError where
  | IdEmpty
deriving DecidableEq, Repr

/-- What `Table::update` submits to the execution layer: the
`(TABLE_NAME, raw_id)` resource plus the record merged as content. -/
structure UpdateCall (α : Type) where
  table : String
  id : String
  content : α
deriving DecidableEq, Repr

namespace Table

/-- `Table::update` (table/mod.rs:134): computes the target from
`Self::TABLE_NAME` and `self.get_id().clone().ok_or(TableError::IdEmpty)?.id.to_owned().to_raw()`;
when `get_id` is `None` the `?` returns the `IdEmpty` error before
`db.update(...)` is ever invoked, so nothing is submitted.  `get_id` is
passed as the value of `self.get_id()`. -/
def update {α : Type} (tableName : String) (self : α)
    (get_id : Option RecordId) : Except TableError (UpdateCall α) :=
  match get_id with
  | none => Except.error TableError.IdEmpty
  | some rid => Except.ok ⟨tableName, rid.id.to_raw, self⟩

/-- `Table::select_builder` (table/mod.rs:149): with an identifier, targets
`RecordId::from((Self::TABLE_NAME, id))`; without one, targets the bare
table name.  Returns a `FilledWhat, NoFields, NoCond` builder. -/
def select_builder (tableName : String) (id : Option String) :
    SelectBuilder .FilledWhat .NoFields .NoCond :=
  match id with
  | some i => SelectBuilder.new.what (ExtraValue.ofRecordId ⟨tableName, i⟩)
  | none => SelectBuilder.new.what (ExtraValue.ofTable tableName)

end Table

end SurrealDB

namespace SurrealDB

/-- One builder call preserves the frame facts every later theorem needs:
the `only`/`parallel`/`explain` flags never fall back, the target and its
stage survive every call once set, the filter and its stage survive every
call once set, and the stage-filter correspondence is preserved. -/
theorem step_frame {s t : BuilderState} (h : Step s t) :
    (s.statement.only = true → t.statement.only = true)
  ∧ (s.statement.parallel = true → t.statement.parallel = true)
  ∧ (s.statement.explain = some true → t.statement.explain = some true)
  ∧ (s.whatState = .FilledWhat →
      t.statement.what = s.statement.what ∧ t.whatState = .FilledWhat)
  ∧ (s.condState = .FilledCond →
      t.statement.cond = s.statement.cond ∧ t.condState = .FilledCond)
  ∧ ((s.condState = .FilledCond ↔ s.statement.cond.isSome = true) →
      (t.condState = .FilledCond ↔ t.statement.cond.isSome = true)) := by
  cases h <;>
    simp [SelectBuilder.toState, SelectBuilder.what, SelectBuilder.field,
      SelectBuilder.condition, SelectBuilder.omit_, SelectBuilder.with_,
      SelectBuilder.split, SelectBuilder.group, SelectBuilder.order,
      SelectBuilder.limit, SelectBuilder.start, SelectBuilder.fetch,
      SelectBuilder.version, SelectBuilder.timeout, SelectBuilder.only,
      SelectBuilder.parallel, SelectBuilder.explain]

/-- Any sequence of builder calls preserves the target once set. -/
theorem rtg_what_frame {s t : BuilderState}
    (h : Relation.ReflTransGen Step s t) (hw : s.whatState = .FilledWhat) :
    t.statement.what = s.statement.what ∧ t.whatState = .FilledWhat := by
  induction h with
  | refl => exact ⟨rfl, hw⟩
  | tail hstep ih h2 =>
      obtain ⟨hwhat, hstate⟩ := h2
      obtain ⟨-, -, -, hfr, -⟩ := step_frame ih
      obtain ⟨hw2, hs2⟩ := hfr hstate
      exact ⟨hw2.trans hwhat, hs2⟩

/-- Any sequence of builder calls keeps the explain marker true once set. -/
theorem rtg_explain_mono {s t : BuilderState}
    (h : Relation.ReflTransGen Step s t)
    (he : s.statement.explain = some true) :
    t.statement.explain = some true := by
  induction h with
  | refl => exact he
  | tail hstep ih h2 => exact (step_frame ih).2.2.1 h2

/-- Any sequence of builder calls keeps the `only` flag true once set. -/
theorem rtg_only_mono {s t : BuilderState}
    (h : Relation.ReflTransGen Step s t) (ho : s.statement.only = true) :
    t.statement.only = true := by
  induction h with
  | refl => exact ho
  | tail hstep ih h2 => exact (step_frame ih).1 h2

/-- Any sequence of builder calls keeps the `parallel` flag true once set. -/
theorem rtg_parallel_mono {s t : BuilderState}
    (h : Relation.ReflTransGen Step s t)
    (hp : s.statement.parallel = true) :
    t.statement.parallel = true := by
  induction h with
  | refl => exact hp
  | tail hstep ih h2 => exact (step_frame ih).2.1 h2

/-- Any sequence of builder calls preserves the filter once set. -/
theorem rtg_cond_frame {s t : BuilderState}
    (h : Relation.ReflTransGen Step s t) (hc : s.condState = .FilledCond) :
    t.statement.cond = s.statement.cond ∧ t.condState = .FilledCond := by
  induction h with
  | refl => exact ⟨rfl, hc⟩
  | tail hstep ih h2 =>
      obtain ⟨hcond, hstate⟩ := h2
      obtain ⟨hc2, hs2⟩ := (step_frame ih).2.2.2.2.1 hstate
      exact ⟨hc2.trans hcond, hs2⟩

/-- In every reachable builder state, the filter stage marker is set if and
only if the statement actually carries a filter. -/
theorem reachable_cond_iff {s : BuilderState} (h : Reachable s) :
    (s.condState = .FilledCond ↔ s.statement.cond.isSome = true) := by
  induction h with
  | refl =>
      simp [SelectBuilder.toState, SelectBuilder.new, SelectStatement.default]
  | tail hstep ih h2 => exact (step_frame ih).2.2.2.2.2 h2

end SurrealDB

namespace SurrealDB

/-- Claim C1: once the projection stage is reached, each call to omit,
split, group, order and fetch (and each `field` call for the projection)
appends exactly one element at the end of the corresponding statement
list — the previous list (with an empty default when the slot was unset)
survives as a prefix, so earlier elements are never removed, reordered,
overwritten or deduplicated; the final conjunct shows two successive
`order` calls accumulating in call order. -/
theorem select_repeatable_clauses_append :
    (∀ (C : CondState) (b : SelectBuilder .FilledWhat .FilledFields C)
      (x : Idiom),
      (b.omit_ x).statement.omit_
        = some (b.statement.omit_.getD [] ++ [x]))
  ∧ (∀ (C : CondState) (b : SelectBuilder .FilledWhat .FilledFields C)
      (x : Split),
      (b.split x).statement.split
        = some (b.statement.split.getD [] ++ [x]))
  ∧ (∀ (C : CondState) (b : SelectBuilder .FilledWhat .FilledFields C)
      (x : Group),
      (b.group x).statement.group
        = some (b.statement.group.getD [] ++ [x]))
  ∧ (∀ (C : CondState) (b : SelectBuilder .FilledWhat .FilledFields C)
      (x : Order),
      (b.order x).statement.order
        = some (b.statement.order.getD [] ++ [x]))
  ∧ (∀ (C : CondState) (b : SelectBuilder .FilledWhat .FilledFields C)
      (x : Fetch),
      (b.fetch x).statement.fetch
        = some (b.statement.fetch.getD [] ++ [x]))
  ∧ (∀ (F : FieldsState) (C : CondState) (b : SelectBuilder .FilledWhat F C)
      (f : Field),
      (b.field f).statement.expr = b.statement.expr ++ [f])
  ∧ (∀ (C : CondState) (b : SelectBuilder .FilledWhat .FilledFields C)
      (x y : Order),
      ((b.order x).order y).statement.order
        = some (b.statement.order.getD [] ++ [x, y])) := by
  refine ⟨?_, ?_, ?_, ?_, ?_, ?_, ?_⟩ <;> intros <;>
    simp [SelectBuilder.omit_, SelectBuilder.split, SelectBuilder.group,
      SelectBuilder.order, SelectBuilder.fetch, SelectBuilder.field]

/-- Claim C2: on a projection-stage builder, repeated limit, start, version
and timeout calls are last-write-wins — each call stores exactly its own
converted value, and a second call discards the first — while `explain`
stores a true marker that stays true across any further sequence of
builder calls. -/
theorem select_lww_explain_monotone :
    ((∀ (C : CondState) (b : SelectBuilder .FilledWhat .FilledFields C)
        (x : Limit), (b.limit x).statement.limit = some x)
      ∧ (∀ (C : CondState) (b : SelectBuilder .FilledWhat .FilledFields C)
        (x y : Limit), ((b.limit x).limit y).statement.limit = some y))
  ∧ ((∀ (C : CondState) (b : SelectBuilder .FilledWhat .FilledFields C)
        (x : Start), (b.start x).statement.start = some x)
      ∧ (∀ (C : CondState) (b : SelectBuilder .FilledWhat .FilledFields C)
        (x y : Start), ((b.start x).start y).statement.start = some y))
  ∧ ((∀ (C : CondState) (b : SelectBuilder .FilledWhat .FilledFields C)
        (x : Version), (b.version x).statement.version = some x)
      ∧ (∀ (C : CondState) (b : SelectBuilder .FilledWhat .FilledFields C)
        (x y : Version),
        ((b.version x).version y).statement.version = some y))
  ∧ ((∀ (C : CondState) (b : SelectBuilder .FilledWhat .FilledFields C)
        (x : Timeout), (b.timeout x).statement.timeout = some x)
      ∧ (∀ (C : CondState) (b : SelectBuilder .FilledWhat .FilledFields C)
        (x y : Timeout),
        ((b.timeout x).timeout y).statement.timeout = some y))
  ∧ (∀ (C : CondState) (b : SelectBuilder .FilledWhat .FilledFields C),
      b.explain.statement.explain = some true)
  ∧ (∀ (s t : BuilderState), Relation.ReflTransGen Step s t →
      s.statement.explain = some true → t.statement.explain = some true) := by
  refine ⟨⟨?_, ?_⟩, ⟨?_, ?_⟩, ⟨?_, ?_⟩, ⟨?_, ?_⟩, ?_, ?_⟩
  case _ => intros; rfl
  case _ => intros; rfl
  case _ => intros; rfl
  case _ => intros; rfl
  case _ => intros; rfl
  case _ => intros; rfl
  case _ => intros; rfl
  case _ => intros; rfl
  case _ => intros; rfl
  case _ => exact fun s t h he => rtg_explain_mono h he

/-- Witness for C2 at a concrete run: after
`new.what("t").field("a").explain`, one further `limit 5` call keeps the
explain marker true. -/
theorem select_lww_explain_monotone_witness :
    ((((SelectBuilder.new.what [Value.table "t"]).field "a").explain.limit
      5).statement.explain = some true) :=
  select_lww_explain_monotone.2.2.2.2.2 _ _
    (Relation.ReflTransGen.single (Step.limit _ _)) rfl

/-- Claim C3: `what` is callable only on a target-unset builder (its Lean
type requires the `NoWhat` stage, mirroring the Rust impl block), it sets
the statement target to the converted argument, and no later `field`,
`condition`, modifier or `to_query` call changes it, so the finished
statement carries exactly the one target clause of `t` — a single
table-wide clause when `t` was a bare name. -/
theorem select_what_set_once :
    (∀ (w : Values), (SelectBuilder.new.what w).statement.what = w)
  ∧ (∀ (w : Values) (t : BuilderState),
      Relation.ReflTransGen Step (SelectBuilder.new.what w).toState t →
      t.statement.what = w)
  ∧ (∀ (n : String) (t : BuilderState),
      Relation.ReflTransGen Step
        (SelectBuilder.new.what (ExtraValue.ofTable n)).toState t →
      t.statement.what = [Value.table n])
  ∧ (∀ (C : CondState) (b : SelectBuilder .FilledWhat .FilledFields C),
      b.to_query.what = b.statement.what) := by
  refine ⟨fun w => rfl, fun w t h => ?_, fun n t h => ?_, fun C b => rfl⟩
  · exact (rtg_what_frame h rfl).1
  · exact (rtg_what_frame h rfl).1

/-- Witness for C3 at a concrete run: after `new.what([table "t"])` and one
further `field "a"` call, the target is still exactly `[table "t"]`. -/
theorem select_what_set_once_witness :
    (((SelectBuilder.new.what [Value.table "t"]).field "a").statement.what
      = [Value.table "t"]) :=
  select_what_set_once.2.1 [Value.table "t"] _
    (Relation.ReflTransGen.single (Step.field _ _))

/-- Claim C4: `condition` is only offered on a filter-unset builder (its
Lean type requires the `NoCond` stage), a single call stores exactly the
converted filter and moves to `FilledCond`; every reachable builder state
has a stored filter exactly when its filter stage is set; and once the
filter stage is set, no single call and no sequence of calls changes the
stored filter. -/
theorem select_cond_attach_once :
    (∀ (b : SelectBuilder .FilledWhat .FilledFields .NoCond) (c : Cond),
      (b.condition c).statement.cond = some c)
  ∧ (∀ (s : BuilderState), Reachable s →
      (s.condState = .FilledCond ↔ s.statement.cond.isSome = true))
  ∧ (∀ (s t : BuilderState), Step s t → s.condState = .FilledCond →
      t.statement.cond = s.statement.cond ∧ t.condState = .FilledCond)
  ∧ (∀ (s t : BuilderState), Relation.ReflTransGen Step s t →
      s.condState = .FilledCond → t.statement.cond = s.statement.cond) := by
  refine ⟨fun b c => rfl, fun s h => reachable_cond_iff h,
    fun s t h hc => (step_frame h).2.2.2.2.1 hc,
    fun s t h hc => (rtg_cond_frame h hc).1⟩

/-- Witness for C4 at a concrete reachable state: after
`new.what("t").field("a").condition("x")` the filter stage is set and the
statement indeed carries a filter. -/
theorem select_cond_attach_once_witness :
    ((((SelectBuilder.new.what [Value.table "t"]).field
        "a").condition "x").toState.condState = CondState.FilledCond ↔
      (((SelectBuilder.new.what [Value.table "t"]).field
        "a").condition "x").toState.statement.cond.isSome = true) :=
  select_cond_attach_once.2.1 _
    (Relation.ReflTransGen.head (Step.what _ _)
      (Relation.ReflTransGen.head (Step.field _ _)
        (Relation.ReflTransGen.single (Step.condition _ _))))

/-- Claim C5: `Table::update` on a record whose `get_id()` is `None`
returns the `IdEmpty` error — in the embedding the error branch is taken
before any `UpdateCall` is ever built, mirroring the Rust `?` returning
before `db.update(...)` runs — and with an identifier present some update
call is submitted, never that error. -/
theorem table_update_id_empty :
    (∀ (α : Type) (t : String) (s : α),
      Table.update t s none = Except.error TableError.IdEmpty)
  ∧ (∀ (α : Type) (t : String) (s : α) (rid : RecordId),
      ∃ call, Table.update t s (some rid) = Except.ok call) :=
  ⟨fun α t s => rfl, fun α t s rid => ⟨_, rfl⟩⟩

/-- Claim C6: `Table::select_builder` returns a builder whose target stage
is already `FilledWhat` (certified by its Lean return type, which also
fixes `NoFields` and `NoCond`): with an identifier the target is the
single record reference of the table name plus that identifier, without
one it is the bare table name, and in both cases the projection list is
still empty and the filter still absent. -/
theorem table_select_builder_prefilled :
    (∀ (t i : String),
      (Table.select_builder t (some i)).statement.what
          = [Value.thing ⟨t, i⟩]
        ∧ (Table.select_builder t (some i)).statement.expr = []
        ∧ (Table.select_builder t (some i)).statement.cond = none)
  ∧ (∀ (t : String),
      (Table.select_builder t none).statement.what = [Value.table t]
        ∧ (Table.select_builder t none).statement.expr = []
        ∧ (Table.select_builder t none).statement.cond = none)
  ∧ (∀ (t : String) (oi : Option String),
      (Table.select_builder t oi).toState.whatState = WhatState.FilledWhat
        ∧ (Table.select_builder t oi).toState.fieldsState
            = FieldsState.NoFields
        ∧ (Table.select_builder t oi).toState.condState
            = CondState.NoCond) :=
  ⟨fun t i => ⟨rfl, rfl, rfl⟩, fun t => ⟨rfl, rfl, rfl⟩,
    fun t oi => ⟨rfl, rfl, rfl⟩⟩

/-- Claim C7: a freshly constructed builder (`SelectBuilder::new`) holds an
entirely empty statement: no target, empty projection, no filter, no
omit/with/split/group/order/fetch entries, no limit, start, version or
timeout, and the only/parallel/explain markers unset. -/
theorem select_new_statement_empty :
    SelectBuilder.new.statement.what = []
  ∧ SelectBuilder.new.statement.expr = []
  ∧ SelectBuilder.new.statement.cond = none
  ∧ SelectBuilder.new.statement.omit_ = none
  ∧ SelectBuilder.new.statement.with_ = none
  ∧ SelectBuilder.new.statement.split = none
  ∧ SelectBuilder.new.statement.group = none
  ∧ SelectBuilder.new.statement.order = none
  ∧ SelectBuilder.new.statement.fetch = none
  ∧ SelectBuilder.new.statement.limit = none
  ∧ SelectBuilder.new.statement.start = none
  ∧ SelectBuilder.new.statement.version = none
  ∧ SelectBuilder.new.statement.timeout = none
  ∧ SelectBuilder.new.statement.only = false
  ∧ SelectBuilder.new.statement.parallel = false
  ∧ SelectBuilder.new.statement.explain = none :=
  ⟨rfl, rfl, rfl, rfl, rfl, rfl, rfl, rfl, rfl, rfl, rfl, rfl, rfl, rfl,
    rfl, rfl⟩

/-- Claim C8: repeated `with` calls are last-write-wins, not accumulating:
each call overwrites the relation-hint slot with its own converted
argument, and after two calls the whole statement is indistinguishable
from one where only the second call happened. -/
theorem select_with_overwrites :
    (∀ (C : CondState) (b : SelectBuilder .FilledWhat .FilledFields C)
      (x : With), (b.with_ x).statement.with_ = some x)
  ∧ (∀ (C : CondState) (b : SelectBuilder .FilledWhat .FilledFields C)
      (x y : With),
      ((b.with_ x).with_ y).statement.with_ = some y
        ∧ ((b.with_ x).with_ y).statement = (b.with_ y).statement) := by
  refine ⟨fun C b x => rfl, fun C b x y => ⟨rfl, ?_⟩⟩
  simp [SelectBuilder.with_]

/-- Claim C9: `Table::update` targets the implementing type's own table
name paired with only the raw identifier portion of the stored record id:
for a record whose stored id names a different table, the submitted call
still uses the type's table name and the raw id, and is identical to the
call for a record id naming the type's own table. -/
theorem table_update_ignores_stored_table :
    ∀ (α : Type) (t : String) (s : α) (rid : RecordId), rid.tb ≠ t →
      Table.update t s (some rid) = Except.ok ⟨t, rid.id.to_raw, s⟩
        ∧ Table.update t s (some rid)
            = Table.update t s (some ⟨t, rid.id⟩) :=
  fun α t s rid h => ⟨rfl, rfl⟩

/-- Witness for C9 at a concrete input: a record stored under
`other_table:x` is updated as `my_table` with raw id `x`. -/
theorem table_update_ignores_stored_table_witness :
    Table.update "my_table" (0 : Nat) (some ⟨"other_table", "x"⟩)
        = Except.ok ⟨"my_table", "x", 0⟩
      ∧ Table.update "my_table" (0 : Nat) (some ⟨"other_table", "x"⟩)
        = Table.update "my_table" (0 : Nat) (some ⟨"my_table", "x"⟩) :=
  table_update_ignores_stored_table Nat "my_table" 0 ⟨"other_table", "x"⟩
    (by decide)

/-- Claim C10: `only` and `parallel` set their statement flag to true, and
no operation of the interface ever sets either flag back to false — across
any further sequence of builder calls both flags stay true, monotone like
explain. -/
theorem select_only_parallel_monotone :
    (∀ (C : CondState) (b : SelectBuilder .FilledWhat .FilledFields C),
      b.only.statement.only = true)
  ∧ (∀ (C : CondState) (b : SelectBuilder .FilledWhat .FilledFields C),
      b.parallel.statement.parallel = true)
  ∧ (∀ (s t : BuilderState), Relation.ReflTransGen Step s t →
      s.statement.only = true → t.statement.only = true)
  ∧ (∀ (s t : BuilderState), Relation.ReflTransGen Step s t →
      s.statement.parallel = true → t.statement.parallel = true) :=
  ⟨fun C b => rfl, fun C b => rfl,
    fun s t h ho => rtg_only_mono h ho,
    fun s t h hp => rtg_parallel_mono h hp⟩

/-- Witness for C10 at a concrete run: after
`new.what("t").field("a").only`, one further `parallel` call keeps the
only flag true. -/
theorem select_only_parallel_monotone_witness :
    ((((SelectBuilder.new.what [Value.table "t"]).field
      "a").only.parallel).statement.only = true) :=
  select_only_parallel_monotone.2.2.1 _ _
    (Relation.ReflTransGen.single (Step.parallel _)) rfl

end SurrealDB
